import Mathlib

/-!
Shallow embedding of `realtime_twitter_api/__init__.py` and verification of
the pagination/watermark cursor model it implements.  Network fetches are
modelled as explicit oracle functions passed to each operation; everything
else follows the Python source line by line.
-/

/-- Upstream JSON record for one tweet, restricted to the fields that the
pagination operations read, plus the upstream retweet counter (which the
`Tweet` constructor never reads, see line 97 of the source). -/
structure TweetData where
  id : String
  createdAt : Int
  replyCount : Int
  retweetCount : Int
  likesCount : Int
  deriving Repr, DecidableEq

/-- The `Tweet` record as assigned by `Tweet.__init__` (source lines 88-111),
restricted to the fields the cursor model uses.  `_reply_count` is the
offset cursor of `get_replies`, initialised to `0` on line 111. -/
structure Tweet where
  id : String
  created_at : Int
  reply_count : Int
  rt_count : Int
  likes_count : Int
  _reply_count : Nat
  deriving Repr, DecidableEq

/-- `Tweet.__init__` field mapping: both `reply_count` (line 96) and
`rt_count` (line 97) are read from the upstream `replyCount` key. -/
def Tweet.ofData (d : TweetData) : Tweet :=
  { id := d.id
    created_at := d.createdAt
    reply_count := d.replyCount
    rt_count := d.replyCount
    likes_count := d.likesCount
    _reply_count := 0 }

/-- Newest-first comparison used by `sort_tweets`:
`a` may come before `b` when `b.created_at ≤ a.created_at`. -/
def byNewest (a b : Tweet) : Prop := b.created_at ≤ a.created_at

instance : DecidableRel byNewest := fun a b => Int.decLe b.created_at a.created_at

instance : IsTotal Tweet byNewest :=
  ⟨fun a b => Int.le_total b.created_at a.created_at⟩

instance : IsTrans Tweet byNewest :=
  ⟨fun _ _ _ hab hbc => le_trans hbc hab⟩

/-- `sort_tweets` (source lines 27-28): Python
`sorted(tweet_list, key=lambda x: x.created_at, reverse=True)` is a stable
descending sort, embedded as insertion sort with the newest-first relation. -/
def sort_tweets (tweet_list : List Tweet) : List Tweet :=
  tweet_list.insertionSort byNewest

/-- The `sort_by` literal of `Search`: `t` (recency) or `h` (popularity). -/
inductive SortBy
  | t
  | h
  deriving Repr, DecidableEq

/-- Python `(lst and lst[-1].id) or ''` (source line 160): identifier of the
last element, or the empty string on an empty list (the `or ''` also maps a
falsy empty identifier to itself). -/
def lastId (l : List Tweet) : String :=
  (l.getLast?.map Tweet.id).getD ""

/-- Python `(lst and lst[0].id) or ''` (source line 161). -/
def headId (l : List Tweet) : String :=
  (l.head?.map Tweet.id).getD ""

/-- Mutable state of a `Search` object (source lines 139-168): the
constructor arguments plus the fields assigned in `__init__`.  The `trend`
field is not modelled (it is never read by the pagination operations). -/
structure SearchState where
  query : String
  search_media : Bool
  sort_by : SortBy
  results : List Tweet
  _oldest_tweet_id : String
  _latest_tweet_id : String
  _tweet_count : Nat
  crumb : String
  deriving Repr, DecidableEq

/-- `Search.__init__` (source lines 139-168), with the upstream page
(`timeline.entry`) and the pagination token (`crumb`) supplied as inputs in
place of the HTTP fetch.  Note that lines 160-162 read the local, unsorted
`results` list, not the sorted `self.results` of line 158. -/
def Search.init (query : String) (search_media : Bool) (sort_by : SortBy)
    (tweet_list : List TweetData) (crumb : String) : SearchState :=
  let results := tweet_list.map Tweet.ofData
  { query := query
    search_media := search_media
    sort_by := sort_by
    results := if sort_by = SortBy.t then sort_tweets results else results
    _oldest_tweet_id := lastId results
    _latest_tweet_id := headId results
    _tweet_count := results.length
    crumb := crumb }

/-- Query parameters of the pagination URL built by `get_more_tweets`
(source lines 181-187): `crumb`, `p`, `md`, the optional `mtype=image`
flag, and exactly one of `oldestTweetId` (recency) or `start`
(popularity). -/
structure MoreRequest where
  crumb : String
  p : String
  md : SortBy
  mtype_image : Bool
  oldestTweetId : Option String
  start : Option Nat
  deriving Repr, DecidableEq

/-- URL construction of `get_more_tweets` (source lines 181-187). -/
def buildMoreRequest (s : SearchState) : MoreRequest :=
  { crumb := s.crumb
    p := s.query
    md := s.sort_by
    mtype_image := s.search_media
    oldestTweetId := if s.sort_by = SortBy.t then some s._oldest_tweet_id else none
    start := if s.sort_by = SortBy.h then some s._tweet_count else none }

/-- The page of one iteration of `get_more_tweets` after the conditional
re-sort (source lines 189-191): mapped through the `Tweet` constructor, and
sorted descending by timestamp exactly when the sort mode is recency. -/
def stepPage (fetch : Nat → MoreRequest → List TweetData) (k : Nat)
    (s : SearchState) : List Tweet :=
  let raw := (fetch k (buildMoreRequest s)).map Tweet.ofData
  if s.sort_by = SortBy.t then sort_tweets raw else raw

/-- One iteration of the loop of `get_more_tweets` (source lines 180-197):
`fetch k req` stands for the records returned by `get_tweets_by_url` on the
`k`-th network call.  The watermark update (lines 193-194) happens after
the re-sort and before the count update (line 196). -/
def getMoreStep (fetch : Nat → MoreRequest → List TweetData) (k : Nat)
    (s : SearchState) : List Tweet × SearchState :=
  let tweets := stepPage fetch k s
  let s1 := match tweets.getLast? with
    | none => s
    | some x => { s with _oldest_tweet_id := x.id }
  (tweets, { s1 with _tweet_count := s1._tweet_count + tweets.length })

/-- The `for _ in range(times)` loop of `get_more_tweets`, with `k` the
index of the next network call; pages accumulate in `results` order
(source line 197). -/
def getMoreLoop (fetch : Nat → MoreRequest → List TweetData) :
    Nat → Nat → SearchState → List Tweet × SearchState
  | 0, _, s => ([], s)
  | n + 1, k, s =>
    let step := getMoreStep fetch k s
    let rest := getMoreLoop fetch n (k + 1) step.2
    (step.1 ++ rest.1, rest.2)

/-- `Search.get_more_tweets` (source lines 170-199). -/
def get_more_tweets (fetch : Nat → MoreRequest → List TweetData)
    (times : Nat) (s : SearchState) : List Tweet × SearchState :=
  getMoreLoop fetch times 0 s

/-- Query parameters of the autoscroll URL built by `get_latest_tweets`
(source lines 205-206). -/
structure LatestRequest where
  crumb : String
  p : String
  latestTweetId : String
  mtype_image : Bool
  deriving Repr, DecidableEq

/-- URL construction of `get_latest_tweets` (source lines 205-206). -/
def buildLatestRequest (s : SearchState) : LatestRequest :=
  { crumb := s.crumb
    p := s.query
    latestTweetId := s._latest_tweet_id
    mtype_image := s.search_media }

/-- `Search.get_latest_tweets` (source lines 201-213): the fetched batch is
always sorted descending by timestamp; a non-empty batch moves the
`_latest_tweet_id` watermark to its first element. -/
def get_latest_tweets (fetch : LatestRequest → List TweetData)
    (s : SearchState) : List Tweet × SearchState :=
  match sort_tweets ((fetch (buildLatestRequest s)).map Tweet.ofData) with
  | [] => ([], s)
  | x :: xs => (x :: xs, { s with _latest_tweet_id := x.id })

/-- Query parameters of the reply-pagination URL (source line 127). -/
structure ReplyRequest where
  tweetId : String
  start : Nat
  deriving Repr, DecidableEq

/-- The `for _ in range(times)` loop of `Tweet.get_replies`
(source lines 124-131): `k` is the index of the next network call and `c`
the current `_reply_count`, used as the `start` offset of the request. -/
def getRepliesLoop (fetch : Nat → ReplyRequest → List TweetData)
    (tweetId : String) : Nat → Nat → Nat → List Tweet × Nat
  | 0, _, c => ([], c)
  | n + 1, k, c =>
    let replies := (fetch k { tweetId := tweetId, start := c }).map Tweet.ofData
    let rest := getRepliesLoop fetch tweetId n (k + 1) (c + replies.length)
    (replies ++ rest.1, rest.2)

/-- `Tweet.get_replies` (source lines 113-132). -/
def get_replies (fetch : Nat → ReplyRequest → List TweetData)
    (times : Nat) (t : Tweet) : List Tweet × Tweet :=
  let out := getRepliesLoop fetch t.id times 0 t._reply_count
  (out.1, { t with _reply_count := out.2 })

/-- Literal opening delimiter of the embedded-JSON pattern of source
line 15. -/
def openTag : List Char :=
  "<script id=\"__NEXT_DATA__\" type=\"application/json\">".toList

/-- Literal closing delimiter of the embedded-JSON pattern of source
line 15. -/
def closeTag : List Char := "</script>".toList

/-- The lazy group `(.+?)` followed by `</script>`: the shortest non-empty
run of non-newline characters after which the closing delimiter follows,
or `none` when no such run starts at this position. -/
def findContent : List Char → Option (List Char)
  | [] => none
  | c :: rest =>
    if c = '\n' then none
    else if closeTag.isPrefixOf rest then some [c]
    else match findContent rest with
      | some cs => some (c :: cs)
      | none => none

/-- First match of the embedded-JSON pattern over the whole document: the
leftmost position where the opening delimiter matches and the lazy content
group closes.  This is `none` exactly when `re.findall` on source line 15
returns the empty list, and the first element of that list otherwise. -/
def findNextData : List Char → Option (List Char)
  | [] => none
  | c :: rest =>
    if openTag.isPrefixOf (c :: rest) then
      match findContent ((c :: rest).drop openTag.length) with
      | some content => some content
      | none => findNextData rest
    else findNextData rest

/-- Failure taxonomy of the extraction step (spec section 7): the
`IndexError` raised by `findall(...)[0]` on an empty match list plays the
role of `ExtractionError`. -/
inductive FetchErr
  | extractionError
  deriving Repr, DecidableEq

/-- `get_next_data` (source lines 13-15), modelled at the extraction step:
the response text is the input and the first matched payload the output.
The downstream `json.loads` of a successfully extracted payload is not
modelled here (its failure is the separate `DecodeError` of the spec). -/
def get_next_data (response_text : List Char) : Except FetchErr (List Char) :=
  match findNextData response_text with
  | none => Except.error FetchErr.extractionError
  | some payload => Except.ok payload

/-- Descending-by-timestamp ordering predicate used when stating the
claims. -/
def SortedDesc (l : List Tweet) : Prop := l.Sorted byNewest

/-! ### Lemmas about `sort_tweets` -/

theorem sortedDesc_sort_tweets (l : List Tweet) : SortedDesc (sort_tweets l) :=
  List.sorted_insertionSort byNewest l

theorem sort_tweets_of_sorted {l : List Tweet} (h : SortedDesc l) :
    sort_tweets l = l :=
  List.Sorted.insertionSort_eq h

theorem sort_tweets_idem (l : List Tweet) :
    sort_tweets (sort_tweets l) = sort_tweets l :=
  sort_tweets_of_sorted (sortedDesc_sort_tweets l)

theorem filter_orderedInsert_key (k : Int) (x : Tweet) :
    ∀ l : List Tweet,
      (l.orderedInsert byNewest x).filter (fun y => y.created_at == k)
        = if x.created_at == k
          then x :: l.filter (fun y => y.created_at == k)
          else l.filter (fun y => y.created_at == k)
  | [] => by
    simp only [List.orderedInsert, List.filter]
    cases hx : x.created_at == k <;> simp [hx]
  | y :: ys => by
    by_cases hxy : byNewest x y
    · rw [show (y :: ys).orderedInsert byNewest x = x :: y :: ys from if_pos hxy]
      cases hx : x.created_at == k <;> simp [List.filter_cons, hx]
    · rw [show (y :: ys).orderedInsert byNewest x
          = y :: ys.orderedInsert byNewest x from if_neg hxy]
      cases hx : x.created_at == k with
      | true =>
        cases hy : y.created_at == k with
        | true =>
          exact absurd (le_of_eq ((eq_of_beq hy).trans (eq_of_beq hx).symm)) hxy
        | false =>
          simp only [List.filter_cons, hx, hy, filter_orderedInsert_key k x ys]
          simp
      | false =>
        cases hy : y.created_at == k <;>
          simp [List.filter_cons, hx, hy, filter_orderedInsert_key k x ys]

theorem filter_sort_tweets (k : Int) : ∀ l : List Tweet,
    (sort_tweets l).filter (fun y => y.created_at == k)
      = l.filter (fun y => y.created_at == k)
  | [] => rfl
  | x :: xs => by
    show ((sort_tweets xs).orderedInsert byNewest x).filter _ = _
    rw [filter_orderedInsert_key, filter_sort_tweets k xs]
    cases hx : x.created_at == k <;> simp [List.filter_cons, hx]

/-- In a descending-sorted non-empty list, the element whose identifier is
`lastId` has a minimal timestamp. -/
theorem exists_last_min : ∀ l : List Tweet, l ≠ [] → SortedDesc l →
    ∃ m, m ∈ l ∧ m.id = lastId l ∧ ∀ x ∈ l, m.created_at ≤ x.created_at
  | [], h, _ => absurd rfl h
  | [a], _, _ =>
    ⟨a, List.mem_singleton_self a, rfl, by
      intro x hx
      rw [List.mem_singleton.mp hx]⟩
  | a :: b :: t, _, hs => by
    obtain ⟨m, hm, hid, hmin⟩ :=
      exists_last_min (b :: t) (by simp) hs.of_cons
    refine ⟨m, List.mem_cons_of_mem a hm, ?_, ?_⟩
    · rw [hid]
      unfold lastId
      rw [List.getLast?_cons_cons]
    · intro x hx
      rcases List.mem_cons.mp hx with hxa | hxm
      · subst hxa
        exact List.rel_of_sorted_cons hs m hm
      · exact hmin x hxm

/-! ### Lemmas about `get_more_tweets` -/

theorem getMoreStep_fst (fetch : Nat → MoreRequest → List TweetData) (k : Nat)
    (s : SearchState) : (getMoreStep fetch k s).1 = stepPage fetch k s := rfl

theorem getMoreStep_frame (fetch : Nat → MoreRequest → List TweetData) (k : Nat)
    (s : SearchState) :
    (getMoreStep fetch k s).2.query = s.query
    ∧ (getMoreStep fetch k s).2.search_media = s.search_media
    ∧ (getMoreStep fetch k s).2.sort_by = s.sort_by
    ∧ (getMoreStep fetch k s).2._latest_tweet_id = s._latest_tweet_id
    ∧ (getMoreStep fetch k s).2.crumb = s.crumb
    ∧ (getMoreStep fetch k s).2.results = s.results := by
  rcases h : (stepPage fetch k s).getLast? with _ | x <;>
    simp [getMoreStep, h]

theorem getMoreStep_count (fetch : Nat → MoreRequest → List TweetData) (k : Nat)
    (s : SearchState) :
    (getMoreStep fetch k s).2._tweet_count
      = s._tweet_count + (getMoreStep fetch k s).1.length := by
  rcases h : (stepPage fetch k s).getLast? with _ | x <;>
    simp [getMoreStep, h]

theorem getMoreStep_oldest_nil (fetch : Nat → MoreRequest → List TweetData)
    (k : Nat) (s : SearchState) (h : (getMoreStep fetch k s).1 = []) :
    (getMoreStep fetch k s).2._oldest_tweet_id = s._oldest_tweet_id := by
  rw [getMoreStep_fst] at h
  simp [getMoreStep, h]

theorem getMoreStep_oldest_last (fetch : Nat → MoreRequest → List TweetData)
    (k : Nat) (s : SearchState) (h : (getMoreStep fetch k s).1 ≠ []) :
    (getMoreStep fetch k s).2._oldest_tweet_id
      = lastId (getMoreStep fetch k s).1 := by
  rw [getMoreStep_fst] at h ⊢
  rcases hl : (stepPage fetch k s).getLast? with _ | x
  · exact absurd (List.getLast?_eq_none_iff.mp hl) h
  · simp [getMoreStep, hl, lastId]

theorem getMoreLoop_frame (fetch : Nat → MoreRequest → List TweetData) :
    ∀ (n k : Nat) (s : SearchState),
      (getMoreLoop fetch n k s).2.query = s.query
      ∧ (getMoreLoop fetch n k s).2.search_media = s.search_media
      ∧ (getMoreLoop fetch n k s).2.sort_by = s.sort_by
      ∧ (getMoreLoop fetch n k s).2._latest_tweet_id = s._latest_tweet_id
      ∧ (getMoreLoop fetch n k s).2.crumb = s.crumb
      ∧ (getMoreLoop fetch n k s).2.results = s.results
  | 0, _, _ => ⟨rfl, rfl, rfl, rfl, rfl, rfl⟩
  | n + 1, k, s => by
    have hstep := getMoreStep_frame fetch k s
    have ih := getMoreLoop_frame fetch n (k + 1) (getMoreStep fetch k s).2
    exact ⟨ih.1.trans hstep.1, ih.2.1.trans hstep.2.1,
      ih.2.2.1.trans hstep.2.2.1, ih.2.2.2.1.trans hstep.2.2.2.1,
      ih.2.2.2.2.1.trans hstep.2.2.2.2.1, ih.2.2.2.2.2.trans hstep.2.2.2.2.2⟩

theorem getMoreLoop_count (fetch : Nat → MoreRequest → List TweetData) :
    ∀ (n k : Nat) (s : SearchState),
      (getMoreLoop fetch n k s).2._tweet_count
        = s._tweet_count + (getMoreLoop fetch n k s).1.length
  | 0, _, _ => rfl
  | n + 1, k, s => by
    have ih := getMoreLoop_count fetch n (k + 1) (getMoreStep fetch k s).2
    show (getMoreLoop fetch n (k + 1) (getMoreStep fetch k s).2).2._tweet_count
      = s._tweet_count
        + ((getMoreStep fetch k s).1
            ++ (getMoreLoop fetch n (k + 1) (getMoreStep fetch k s).2).1).length
    rw [ih, getMoreStep_count, List.length_append]
    omega

theorem getMoreLoop_fst (fetch : Nat → MoreRequest → List TweetData)
    (n k : Nat) (s : SearchState) :
    (getMoreLoop fetch (n + 1) k s).1
      = (getMoreStep fetch k s).1
        ++ (getMoreLoop fetch n (k + 1) (getMoreStep fetch k s).2).1 := rfl

theorem getMoreLoop_oldest_nil (fetch : Nat → MoreRequest → List TweetData) :
    ∀ (n k : Nat) (s : SearchState), (getMoreLoop fetch n k s).1 = [] →
      (getMoreLoop fetch n k s).2._oldest_tweet_id = s._oldest_tweet_id
  | 0, _, _, _ => rfl
  | n + 1, k, s, h => by
    rw [getMoreLoop_fst] at h
    obtain ⟨hstep, hrest⟩ := List.append_eq_nil.mp h
    have ih := getMoreLoop_oldest_nil fetch n (k + 1) (getMoreStep fetch k s).2 hrest
    exact ih.trans (getMoreStep_oldest_nil fetch k s hstep)

theorem getMoreLoop_oldest_last (fetch : Nat → MoreRequest → List TweetData) :
    ∀ (n k : Nat) (s : SearchState), (getMoreLoop fetch n k s).1 ≠ [] →
      (getMoreLoop fetch n k s).2._oldest_tweet_id
        = lastId (getMoreLoop fetch n k s).1
  | 0, _, _, h => absurd rfl h
  | n + 1, k, s, h => by
    rw [getMoreLoop_fst] at h ⊢
    by_cases hrest : (getMoreLoop fetch n (k + 1) (getMoreStep fetch k s).2).1 = []
    · have hstep : (getMoreStep fetch k s).1 ≠ [] := by
        intro hs
        exact h (by rw [hs, hrest]; rfl)
      rw [hrest, List.append_nil]
      exact (getMoreLoop_oldest_nil fetch n (k + 1) (getMoreStep fetch k s).2
        hrest).trans (getMoreStep_oldest_last fetch k s hstep)
    · have ih := getMoreLoop_oldest_last fetch n (k + 1)
        (getMoreStep fetch k s).2 hrest
      show (getMoreLoop fetch n (k + 1) (getMoreStep fetch k s).2).2._oldest_tweet_id
        = lastId ((getMoreStep fetch k s).1
            ++ (getMoreLoop fetch n (k + 1) (getMoreStep fetch k s).2).1)
      rw [ih]
      unfold lastId
      rw [List.getLast?_append]
      rcases hl : (getMoreLoop fetch n (k + 1) (getMoreStep fetch k s).2).1.getLast?
        with _ | x
      · exact absurd (List.getLast?_eq_none_iff.mp hl) hrest
      · rfl

/-! ### Lemmas about `get_latest_tweets` and `get_replies` -/

theorem get_latest_eq (fetch : LatestRequest → List TweetData) (s : SearchState) :
    (get_latest_tweets fetch s).1
      = sort_tweets ((fetch (buildLatestRequest s)).map Tweet.ofData) := by
  unfold get_latest_tweets
  rcases h : sort_tweets ((fetch (buildLatestRequest s)).map Tweet.ofData)
    with _ | ⟨x, xs⟩ <;> simp [h]

theorem get_latest_state_nil (fetch : LatestRequest → List TweetData)
    (s : SearchState) (h : (get_latest_tweets fetch s).1 = []) :
    (get_latest_tweets fetch s).2 = s := by
  rw [get_latest_eq] at h
  unfold get_latest_tweets
  rw [h]

theorem get_latest_state_cons (fetch : LatestRequest → List TweetData)
    (s : SearchState) (x : Tweet) (xs : List Tweet)
    (h : (get_latest_tweets fetch s).1 = x :: xs) :
    (get_latest_tweets fetch s).2 = { s with _latest_tweet_id := x.id } := by
  rw [get_latest_eq] at h
  unfold get_latest_tweets
  rw [h]

theorem getRepliesLoop_count (fetch : Nat → ReplyRequest → List TweetData)
    (tid : String) : ∀ (n k c : Nat),
    (getRepliesLoop fetch tid n k c).2
      = c + (getRepliesLoop fetch tid n k c).1.length
  | 0, _, _ => rfl
  | n + 1, k, c => by
    have ih := getRepliesLoop_count fetch tid n (k + 1)
      (c + ((fetch k { tweetId := tid, start := c }).map Tweet.ofData).length)
    show (getRepliesLoop fetch tid n (k + 1)
        (c + ((fetch k { tweetId := tid, start := c }).map Tweet.ofData).length)).2
      = c + (((fetch k { tweetId := tid, start := c }).map Tweet.ofData)
          ++ (getRepliesLoop fetch tid n (k + 1)
            (c + ((fetch k { tweetId := tid, start := c }).map
              Tweet.ofData).length)).1).length
    rw [ih, List.length_append]
    omega

/-! ### Claims -/

/-- Initial page of the C1 scenario: timestamps [500,400,300,200,100]
delivered in the order [300,500,100,400,200]. -/
def c1Page : List TweetData :=
  [⟨"a", 300, 0, 0, 0⟩, ⟨"b", 500, 0, 0, 0⟩, ⟨"c", 100, 0, 0, 0⟩,
   ⟨"d", 400, 0, 0, 0⟩, ⟨"e", 200, 0, 0, 0⟩]

/-- C1 (evaluation at the failing input): for the recency-mode session
built from the page with timestamps [500,400,300,200,100] delivered as
[300,500,100,400,200], `results` is indeed the records in descending
timestamp order, but the watermarks are read off the unsorted delivery
order (source lines 160-161): `_oldest_tweet_id` is the identifier of the
record with timestamp 200 (not 100, as the watermark design intends) and
`_latest_tweet_id` the identifier of the record with timestamp 300
(not 500). -/
theorem C1_init_watermarks_eval :
    ((Search.init "q" false SortBy.t c1Page "cr").results.map Tweet.created_at
        = [500, 400, 300, 200, 100]
      ∧ (Search.init "q" false SortBy.t c1Page "cr").results.map Tweet.id
        = ["b", "d", "a", "e", "c"])
    ∧ (Search.init "q" false SortBy.t c1Page "cr")._oldest_tweet_id = "e"
    ∧ (Search.init "q" false SortBy.t c1Page "cr")._latest_tweet_id = "a"
    ∧ ¬(Search.init "q" false SortBy.t c1Page "cr")._oldest_tweet_id = "c"
    ∧ ¬(Search.init "q" false SortBy.t c1Page "cr")._latest_tweet_id = "b" := by
  decide

/-- C2: in recency mode, after `times` iterations of `get_more_tweets` the
total fetched count has increased by the total size of the returned pages;
every iteration's page is sorted descending by timestamp before it is
appended and before the watermark update, and a non-empty page moves
`_oldest_tweet_id` to the identifier of its last record; consequently,
when the concatenated result is non-empty, the final `_oldest_tweet_id`
is the identifier of its last record, and that record has a minimal
timestamp among all fetched records whenever the pages are cross-page
descending (the spec's well-behaved upstream). -/
theorem C2_get_more_recency (fetch : Nat → MoreRequest → List TweetData)
    (times : Nat) (s : SearchState) (hmode : s.sort_by = SortBy.t) :
    (get_more_tweets fetch times s).2._tweet_count
        = s._tweet_count + (get_more_tweets fetch times s).1.length
    ∧ (∀ k s1, s1.sort_by = SortBy.t →
        (getMoreStep fetch k s1).1
            = sort_tweets ((fetch k (buildMoreRequest s1)).map Tweet.ofData)
        ∧ SortedDesc (getMoreStep fetch k s1).1
        ∧ ((getMoreStep fetch k s1).1 ≠ [] →
            (getMoreStep fetch k s1).2._oldest_tweet_id
              = lastId (getMoreStep fetch k s1).1))
    ∧ ((get_more_tweets fetch times s).1 ≠ [] →
        (get_more_tweets fetch times s).2._oldest_tweet_id
            = lastId (get_more_tweets fetch times s).1
        ∧ (SortedDesc (get_more_tweets fetch times s).1 →
            ∃ m, m ∈ (get_more_tweets fetch times s).1
              ∧ m.id = (get_more_tweets fetch times s).2._oldest_tweet_id
              ∧ ∀ x ∈ (get_more_tweets fetch times s).1,
                  m.created_at ≤ x.created_at)) := by
  clear hmode
  refine ⟨getMoreLoop_count fetch times 0 s, ?_, ?_⟩
  · intro k s1 h1
    have hpage : (getMoreStep fetch k s1).1
        = sort_tweets ((fetch k (buildMoreRequest s1)).map Tweet.ofData) := by
      rw [getMoreStep_fst]
      unfold stepPage
      rw [if_pos h1]
    exact ⟨hpage, by rw [hpage]; exact sortedDesc_sort_tweets _,
      getMoreStep_oldest_last fetch k s1⟩
  · intro hne
    have hlast := getMoreLoop_oldest_last fetch times 0 s hne
    refine ⟨hlast, fun hs => ?_⟩
    obtain ⟨m, hm, hid, hmin⟩ := exists_last_min _ hne hs
    exact ⟨m, hm, hid.trans hlast.symm, hmin⟩

/-- Two-page oracle for the C2 witness. -/
def c2Fetch : Nat → MoreRequest → List TweetData := fun k _ =>
  if k = 0 then [⟨"b", 500, 0, 0, 0⟩, ⟨"d", 400, 0, 0, 0⟩]
  else if k = 1 then [⟨"c", 100, 0, 0, 0⟩] else []

/-- Recency-mode state for the C2 witness. -/
def c2State : SearchState :=
  { query := "q", search_media := false, sort_by := SortBy.t, results := [],
    _oldest_tweet_id := "", _latest_tweet_id := "", _tweet_count := 5,
    crumb := "cr" }

/-- C2 witness at a concrete two-page run. -/
theorem C2_get_more_recency_witness :
    (get_more_tweets c2Fetch 2 c2State).2._tweet_count
        = c2State._tweet_count + (get_more_tweets c2Fetch 2 c2State).1.length
    ∧ (get_more_tweets c2Fetch 2 c2State).2._oldest_tweet_id
        = lastId (get_more_tweets c2Fetch 2 c2State).1 := by
  have h := C2_get_more_recency c2Fetch 2 c2State rfl
  exact ⟨h.1, (h.2.2 (by decide)).1⟩

/-- C3: `get_latest_tweets` returns the fetched batch sorted descending by
timestamp; on a non-empty batch `_latest_tweet_id` becomes the identifier
of the first (newest) record of the sorted batch; on an empty batch the
state is unchanged and the empty list is returned. -/
theorem C3_get_latest (fetch : LatestRequest → List TweetData)
    (s : SearchState) :
    (get_latest_tweets fetch s).1
        = sort_tweets ((fetch (buildLatestRequest s)).map Tweet.ofData)
    ∧ SortedDesc (get_latest_tweets fetch s).1
    ∧ (∀ x xs, (get_latest_tweets fetch s).1 = x :: xs →
        (get_latest_tweets fetch s).2._latest_tweet_id = x.id)
    ∧ (fetch (buildLatestRequest s) = [] →
        (get_latest_tweets fetch s).1 = []
        ∧ (get_latest_tweets fetch s).2 = s) := by
  refine ⟨get_latest_eq fetch s, ?_, ?_, ?_⟩
  · rw [get_latest_eq]
    exact sortedDesc_sort_tweets _
  · intro x xs hx
    rw [get_latest_state_cons fetch s x xs hx]
  · intro hf
    have h1 : (get_latest_tweets fetch s).1 = [] := by
      rw [get_latest_eq, hf]
      rfl
    exact ⟨h1, get_latest_state_nil fetch s h1⟩

/-- Non-empty oracle for the C3 witness. -/
def c3Fetch : LatestRequest → List TweetData := fun _ =>
  [⟨"n1", 10, 0, 0, 0⟩, ⟨"n2", 20, 0, 0, 0⟩]

/-- Empty oracle for the C3 witness. -/
def c3FetchEmpty : LatestRequest → List TweetData := fun _ => []

/-- State for the C3 witness. -/
def c3State : SearchState :=
  { query := "q", search_media := false, sort_by := SortBy.t, results := [],
    _oldest_tweet_id := "o", _latest_tweet_id := "old", _tweet_count := 5,
    crumb := "cr" }

/-- C3 witness: a non-empty batch moves the watermark to the newest
record; an empty batch leaves the state unchanged. -/
theorem C3_get_latest_witness :
    (get_latest_tweets c3Fetch c3State).2._latest_tweet_id = "n2"
    ∧ (get_latest_tweets c3FetchEmpty c3State).2 = c3State := by
  refine ⟨?_, ((C3_get_latest c3FetchEmpty c3State).2.2.2 rfl).2⟩
  have h := (C3_get_latest c3Fetch c3State).2.2.1
    (Tweet.ofData ⟨"n2", 20, 0, 0, 0⟩) [Tweet.ofData ⟨"n1", 10, 0, 0, 0⟩]
    (by decide)
  exact h

/-- Reply records with timestamps `a, ..., b - 1`, the mocked page for
offsets `a` to `b`. -/
def replyPage (a b : Nat) : List TweetData :=
  (List.range (b - a)).map (fun j => ⟨"r", Int.ofNat (a + j), 0, 0, 0⟩)

/-- Mocked reply oracle of the C4 scenario: pages of sizes [10, 10, 4]
keyed to the offsets 0, 10 and 20 of tweet "T"; empty anywhere else, so
the total of 24 is reached only if the loop requests exactly the running
offsets. -/
def fetchPages3 : Nat → ReplyRequest → List TweetData := fun _ req =>
  if req.tweetId = "T" then
    if req.start = 0 then replyPage 0 10
    else if req.start = 10 then replyPage 10 20
    else if req.start = 20 then replyPage 20 24
    else []
  else []

/-- Parent tweet of the C4 scenario, with `_reply_count = 0`. -/
def tweetT : Tweet := ⟨"T", 0, 0, 0, 0, 0⟩

/-- C4: each round of `get_replies` requests the page at offset equal to
the current `_reply_count`, appends the returned records in upstream
order, and advances the count by exactly the number of records returned;
with `times = 3` against pages keyed to offsets 0, 10 and 20 of sizes
[10, 10, 4], the final count is 24 and the 24 records come back in
concatenation order; a zero-record page adds nothing and leaves the
offset unchanged for that round. -/
theorem C4_get_replies (fetch : Nat → ReplyRequest → List TweetData)
    (t : Tweet) (times : Nat) (htimes : 1 ≤ times) :
    (get_replies fetch times t).2._reply_count
        = t._reply_count + (get_replies fetch times t).1.length
    ∧ (∀ k c, getRepliesLoop fetch t.id 1 k c
        = ((fetch k { tweetId := t.id, start := c }).map Tweet.ofData,
           c + ((fetch k { tweetId := t.id, start := c }).map
             Tweet.ofData).length))
    ∧ (∀ k c, fetch k { tweetId := t.id, start := c } = [] →
        getRepliesLoop fetch t.id 1 k c = ([], c))
    ∧ ((get_replies fetchPages3 3 tweetT).1.length = 24
        ∧ (get_replies fetchPages3 3 tweetT).2._reply_count = 24
        ∧ (get_replies fetchPages3 3 tweetT).1
            = (replyPage 0 10 ++ replyPage 10 20 ++ replyPage 20 24).map
                Tweet.ofData) := by
  clear htimes
  refine ⟨getRepliesLoop_count fetch t.id times 0 t._reply_count, ?_, ?_, ?_⟩
  · intro k c
    simp [getRepliesLoop]
  · intro k c h
    simp [getRepliesLoop, h]
  · exact ⟨by decide, by decide, by decide⟩

/-- C4 witness: the concrete three-page run, and a zero-record round at
offset 99 leaving the count unchanged. -/
theorem C4_get_replies_witness :
    (get_replies fetchPages3 3 tweetT).2._reply_count
        = tweetT._reply_count + (get_replies fetchPages3 3 tweetT).1.length
    ∧ getRepliesLoop fetchPages3 tweetT.id 1 7 99 = ([], 99) := by
  have h := C4_get_replies fetchPages3 tweetT 3 (by decide)
  exact ⟨h.1, h.2.2.1 7 99 (by decide)⟩

/-- C5: in popularity mode, every iteration of `get_more_tweets` builds
its request with `start` equal to the running `_tweet_count` and no
oldest-ID bound, uses the returned page in upstream order without
re-sorting, keeps the mode at popularity, and advances the running offset
by the page size for the next iteration. -/
theorem C5_get_more_popularity (fetch : Nat → MoreRequest → List TweetData)
    (k : Nat) (s : SearchState) (hmode : s.sort_by = SortBy.h) :
    (buildMoreRequest s).start = some s._tweet_count
    ∧ (buildMoreRequest s).oldestTweetId = none
    ∧ (getMoreStep fetch k s).1 = (fetch k (buildMoreRequest s)).map Tweet.ofData
    ∧ (getMoreStep fetch k s).2.sort_by = SortBy.h
    ∧ (getMoreStep fetch k s).2._tweet_count
        = s._tweet_count + (getMoreStep fetch k s).1.length := by
  have hneq : ¬s.sort_by = SortBy.t := by simp [hmode]
  refine ⟨?_, ?_, ?_, ?_, getMoreStep_count fetch k s⟩
  · unfold buildMoreRequest
    rw [if_pos hmode]
  · unfold buildMoreRequest
    rw [if_neg hneq]
  · rw [getMoreStep_fst]
    unfold stepPage
    rw [if_neg hneq]
  · rw [(getMoreStep_frame fetch k s).2.2.1, hmode]

/-- Popularity-mode state for the C5 witness. -/
def c5State : SearchState :=
  { query := "q", search_media := false, sort_by := SortBy.h, results := [],
    _oldest_tweet_id := "", _latest_tweet_id := "", _tweet_count := 7,
    crumb := "cr" }

/-- C5 witness at a concrete popularity-mode state. -/
theorem C5_get_more_popularity_witness :
    (buildMoreRequest c5State).start = some 7
    ∧ (buildMoreRequest c5State).oldestTweetId = none := by
  have h := C5_get_more_popularity (fun _ _ => []) 0 c5State rfl
  exact ⟨h.1, h.2.1⟩

/-- C6: constructing a `Search` from an empty initial page yields empty
watermarks and a zero count, in either sort mode. -/
theorem C6_init_empty (query : String) (search_media : Bool)
    (sort_by : SortBy) (crumb : String) :
    (Search.init query search_media sort_by [] crumb)._oldest_tweet_id = ""
    ∧ (Search.init query search_media sort_by [] crumb)._latest_tweet_id = ""
    ∧ (Search.init query search_media sort_by [] crumb)._tweet_count = 0 :=
  ⟨rfl, rfl, rfl⟩

/-- C7: when the embedded-JSON delimiter pattern has no match in the
document, `get_next_data` fails with the extraction error; it never
returns an extracted payload in that case. -/
theorem C7_get_next_data_no_match (response_text : List Char)
    (h : findNextData response_text = none) :
    get_next_data response_text = Except.error FetchErr.extractionError
    ∧ ∀ payload, get_next_data response_text ≠ Except.ok payload := by
  have he : get_next_data response_text
      = Except.error FetchErr.extractionError := by
    unfold get_next_data
    rw [h]
  exact ⟨he, fun payload hp => by rw [he] at hp; cases hp⟩

/-- C7 witness: a document without the marker. -/
theorem C7_get_next_data_no_match_witness :
    findNextData "hello".toList = none
    ∧ get_next_data "hello".toList = Except.error FetchErr.extractionError :=
  ⟨by decide, (C7_get_next_data_no_match "hello".toList (by decide)).1⟩

/-- C8: on every non-empty record list, the descending-timestamp sort is
idempotent, and records with equal timestamps keep their input order
(filtering the sorted list to any fixed timestamp returns exactly the
input's records with that timestamp, in their original order). -/
theorem C8_sort_idempotent_stable (l : List Tweet) (h : l ≠ []) :
    sort_tweets (sort_tweets l) = sort_tweets l
    ∧ ∀ k : Int, (sort_tweets l).filter (fun y => y.created_at == k)
        = l.filter (fun y => y.created_at == k) :=
  ⟨sort_tweets_idem l, fun k => filter_sort_tweets k l⟩

/-- List with a timestamp tie for the C8 witness. -/
def c8List : List Tweet :=
  [⟨"x", 5, 0, 0, 0, 0⟩, ⟨"y", 5, 0, 0, 0, 0⟩, ⟨"z", 7, 0, 0, 0, 0⟩]

/-- C8 witness on a list with a timestamp tie. -/
theorem C8_sort_idempotent_stable_witness :
    sort_tweets (sort_tweets c8List) = sort_tweets c8List
    ∧ (sort_tweets c8List).filter (fun y => y.created_at == 5)
        = c8List.filter (fun y => y.created_at == 5) := by
  have h := C8_sort_idempotent_stable c8List (by decide)
  exact ⟨h.1, h.2 5⟩

/-- C9: the constructed record's retweet counter always equals its reply
counter — both are populated from the upstream `replyCount` value — and
the constructed record does not depend on the upstream retweet-count
field at all. -/
theorem C9_rt_count_eq_reply_count (d : TweetData) :
    (Tweet.ofData d).rt_count = (Tweet.ofData d).reply_count
    ∧ (Tweet.ofData d).rt_count = d.replyCount
    ∧ (Tweet.ofData d).reply_count = d.replyCount
    ∧ ∀ r : Int, Tweet.ofData { d with retweetCount := r } = Tweet.ofData d :=
  ⟨rfl, rfl, rfl, fun _ => rfl⟩

/-- C10: `get_more_tweets` never modifies `_latest_tweet_id`, `query`,
`sort_by`, `search_media` or `crumb` (nor `results`); `get_latest_tweets`
modifies at most `_latest_tweet_id`, leaving `_oldest_tweet_id`,
`_tweet_count` and every other field unchanged. -/
theorem C10_frame (fetch : Nat → MoreRequest → List TweetData) (times : Nat)
    (s : SearchState) (gfetch : LatestRequest → List TweetData) :
    ((get_more_tweets fetch times s).2._latest_tweet_id = s._latest_tweet_id
      ∧ (get_more_tweets fetch times s).2.query = s.query
      ∧ (get_more_tweets fetch times s).2.sort_by = s.sort_by
      ∧ (get_more_tweets fetch times s).2.search_media = s.search_media
      ∧ (get_more_tweets fetch times s).2.crumb = s.crumb
      ∧ (get_more_tweets fetch times s).2.results = s.results)
    ∧ ((get_latest_tweets gfetch s).2._oldest_tweet_id = s._oldest_tweet_id
      ∧ (get_latest_tweets gfetch s).2._tweet_count = s._tweet_count
      ∧ (get_latest_tweets gfetch s).2.query = s.query
      ∧ (get_latest_tweets gfetch s).2.sort_by = s.sort_by
      ∧ (get_latest_tweets gfetch s).2.search_media = s.search_media
      ∧ (get_latest_tweets gfetch s).2.crumb = s.crumb
      ∧ (get_latest_tweets gfetch s).2.results = s.results) := by
  have hm := getMoreLoop_frame fetch times 0 s
  refine ⟨⟨hm.2.2.2.1, hm.1, hm.2.2.1, hm.2.1, hm.2.2.2.2.1,
    hm.2.2.2.2.2⟩, ?_⟩
  rcases hl : (get_latest_tweets gfetch s).1 with _ | ⟨x, xs⟩
  · rw [get_latest_state_nil gfetch s hl]
    exact ⟨rfl, rfl, rfl, rfl, rfl, rfl, rfl⟩
  · rw [get_latest_state_cons gfetch s x xs hl]
    exact ⟨rfl, rfl, rfl, rfl, rfl, rfl, rfl⟩
